import Mathlib

/-
  Verification of the streaming feature-extraction and state-machine engine of
  realtime_tcn.js (real-time drowsiness detection: eye and mouth state machines,
  rolling statistics, online normalization, fixed temporal window).

  The JavaScript source is shallowly embedded: JavaScript numbers are modelled
  as exact rationals, with a separate constructor for non-finite values
  (NaN or infinity) where the code tests Number.isFinite or isFinite; state held
  in module-level variables is gathered into explicit state structures; each
  per-tick block of the processing callback becomes a state-transition function.
  Float32Array and Float64Array storage is modelled as functions from indices to
  rationals.  Exponential-smoothing coefficients of the form 1 - exp(-dt / tau)
  are irrational, so state-update functions take the coefficient as a parameter;
  no claim below depends on its numeric value.  Math.sqrt is likewise passed as
  a function parameter where a definition needs it.
-/

namespace RealtimeTCN

/-! ## Timing and constants (source lines 50-84) -/

def TARGET_FPS : ℕ := 15

/-- DT = 1 / TARGET_FPS. -/
def DT : ℚ := 1 / TARGET_FPS

def TCN_WINDOW : ℕ := 90

def EYE_CLOSE_T : ℚ := 0.40

/-- FRM_2P5S = Math.round(0.8 * TARGET_FPS) = 12.  The name suggests 2.5 s but
the value encodes 0.8 s; the literal value is kept.  The defining equation with
the rounding is proved below (FRM_2P5S_eq). -/
def FRM_2P5S : ℕ := 12

def BLINK_MIN_F : ℕ := 2

def BLINK_MAX_F : ℕ := 6

def EYE_DEBOUNCE_ON_F : ℕ := 2

def EYE_DEBOUNCE_OFF_F : ℕ := 2

/-- BLINK_LOCK_FRM = Math.round(2.0 * TARGET_FPS) = 30 (proved below). -/
def BLINK_LOCK_FRM : ℕ := 30

def PER_30S : ℕ := 30 * TARGET_FPS

def MOUTH_ON_T : ℚ := 0.55

def MOUTH_OFF_T : ℚ := 0.45

def MOUTH_PROLONG_S : ℚ := 1.3

def MOUTH_SHORT_MIN_S : ℚ := 0.10

def MOUTH_SHORT_MAX_S : ℚ := 0.50

def TS_MAX : ℚ := 30

def NORM_SECONDS : ℚ := 10.0

def MIN_ACCEPTED : ℕ := 60

/-! ## JavaScript numbers

A JavaScript float is modelled as either a finite rational or the single
non-finite value (covering NaN and the infinities, which the source only ever
inspects through isFinite / Number.isFinite). -/

inductive JNum where
  | num (q : ℚ)
  | nonfinite
deriving DecidableEq

/-- finiteOr(v, def) = Number.isFinite(v) ? v : def   (source line 235). -/
def finiteOr (v : JNum) (d : ℚ) : ℚ :=
  match v with
  | .num q => q
  | .nonfinite => d

/-- Whether a JNum is a finite number. -/
def JNum.isFin : JNum → Bool
  | .num _ => true
  | .nonfinite => false

/-! ## Ring: circular buffer with running sum (source lines 87-95)

The Float32Array backing store is modelled as a total function from natural
indices to rationals; the class only ever reads and writes indices below n. -/

structure Ring where
  n : ℕ
  buf : ℕ → ℚ
  sum : ℚ
  count : ℕ
  i : ℕ

/-- Constructor: new Ring(n). -/
def Ring.init (n : ℕ) : Ring :=
  { n := n, buf := fun _ => 0, sum := 0, count := 0, i := 0 }

/-- push(v): fill phase while count < n, otherwise overwrite the slot at i,
maintaining the running sum (source lines 89-92). -/
def Ring.push (r : Ring) (v : ℚ) : Ring :=
  if r.count < r.n then
    { r with buf := Function.update r.buf r.i v, sum := r.sum + v,
             i := (r.i + 1) % r.n, count := r.count + 1 }
  else
    { r with sum := r.sum - r.buf r.i + v, buf := Function.update r.buf r.i v,
             i := (r.i + 1) % r.n }

/-- mean() = count ? sum / count : 0   (source line 93). -/
def Ring.mean (r : Ring) : ℚ :=
  if r.count ≠ 0 then r.sum / (r.count : ℚ) else 0

/-- reset()  (source line 94). -/
def Ring.reset (r : Ring) : Ring :=
  { r with sum := 0, count := 0, i := 0, buf := fun _ => 0 }

/-- Pushing a whole sequence of samples, oldest first, into a fresh ring. -/
def pushSeq (n : ℕ) (xs : List ℚ) : Ring :=
  xs.foldl Ring.push (Ring.init n)

/-- Worded from the spec: the samples currently within the trailing window of
capacity n are the last min(length, n) pushed samples. -/
def trailingWindow (n : ℕ) (xs : List ℚ) : List ℚ :=
  xs.drop (xs.length - n)

/-- Representation invariant tying a ring to the whole push history xs:
counter and cursor values, slot contents, and the running sum. -/
def RingInv (n : ℕ) (xs : List ℚ) (r : Ring) : Prop :=
  r.n = n ∧ r.count = min xs.length n ∧ r.i = xs.length % n ∧
  (∀ j, j < xs.length → xs.length ≤ j + n → r.buf (j % n) = xs.getD j 0) ∧
  r.sum = (trailingWindow n xs).sum

/-! ## Feature assembly (source lines 210-235)

buildRawFeatures receives the per-tick object assembled at source lines
534-551; every field is always supplied there, so the nullish fallback on
eye_run_len_frames never sees a missing value and is the identity (it does not
replace NaN, which passes through a JavaScript nullish coalescing operator). -/

structure RawObj where
  yawDeg : JNum
  pitchDeg : JNum
  rollDeg : JNum
  dYaw : JNum
  dPitch : JNum
  dRoll : JNum
  eye_open_unified : JNum
  ema_eye_open_1s : JNum
  ema_eye_open_5s : JNum
  eye_open_trend_3s : JNum
  eye_close_dur_s : JNum
  eye_run_len_frames : JNum
  perclos_30s : JNum
  blink_rate_30s : JNum
  max_close_run_10s : JNum
  time_since_last_blink_s : JNum
  yawn_prob_ema_1s : JNum
  mouth_open_run_s : JNum
  mouth_open_rate_30s : JNum
  time_since_last_yawn_s : JNum
deriving DecidableEq

/-- The 20 named features in FEAT_ORDER (source lines 38-45). -/
structure RawFeatures where
  yaw_adj : JNum
  pitch_adj : JNum
  roll_adj : JNum
  dyaw_adj_per_s : JNum
  dpitch_adj_per_s : JNum
  droll_adj_per_s : JNum
  eye_open_unified : JNum
  ema_eye_open_1s : JNum
  ema_eye_open_5s : JNum
  eye_open_trend_3s : JNum
  eye_close_dur_s : JNum
  eye_run_len_frames : JNum
  perclos_30s : JNum
  blink_rate_30s : JNum
  max_close_run_10s : JNum
  time_since_last_blink_s : JNum
  yawn_prob_ema_1s : JNum
  mouth_open_run_s : JNum
  mouth_open_rate_30s : JNum
  time_since_last_yawn_s : JNum
deriving DecidableEq

/-- buildRawFeatures (source lines 210-234): the six pose fields and
eye_run_len_frames are copied through unchanged; the remaining 13 fields pass
through finiteOr with default 0.5 for the three openness-like signals and 0.0
for the rest. -/
def buildRawFeatures (obj : RawObj) : RawFeatures :=
  { yaw_adj := obj.yawDeg
    pitch_adj := obj.pitchDeg
    roll_adj := obj.rollDeg
    dyaw_adj_per_s := obj.dYaw
    dpitch_adj_per_s := obj.dPitch
    droll_adj_per_s := obj.dRoll
    eye_open_unified := .num (finiteOr obj.eye_open_unified 0.5)
    ema_eye_open_1s := .num (finiteOr obj.ema_eye_open_1s 0.5)
    ema_eye_open_5s := .num (finiteOr obj.ema_eye_open_5s 0.5)
    eye_open_trend_3s := .num (finiteOr obj.eye_open_trend_3s 0.0)
    eye_close_dur_s := .num (finiteOr obj.eye_close_dur_s 0.0)
    eye_run_len_frames := obj.eye_run_len_frames
    perclos_30s := .num (finiteOr obj.perclos_30s 0.0)
    blink_rate_30s := .num (finiteOr obj.blink_rate_30s 0.0)
    max_close_run_10s := .num (finiteOr obj.max_close_run_10s 0.0)
    time_since_last_blink_s := .num (finiteOr obj.time_since_last_blink_s 0.0)
    yawn_prob_ema_1s := .num (finiteOr obj.yawn_prob_ema_1s 0.0)
    mouth_open_run_s := .num (finiteOr obj.mouth_open_run_s 0.0)
    mouth_open_rate_30s := .num (finiteOr obj.mouth_open_rate_30s 0.0)
    time_since_last_yawn_s := .num (finiteOr obj.time_since_last_yawn_s 0.0) }

/-- The assembled FeatureVector as the ordered 20-element list (FEAT_ORDER). -/
def featList (f : RawFeatures) : List JNum :=
  [f.yaw_adj, f.pitch_adj, f.roll_adj,
   f.dyaw_adj_per_s, f.dpitch_adj_per_s, f.droll_adj_per_s,
   f.eye_open_unified, f.ema_eye_open_1s, f.ema_eye_open_5s, f.eye_open_trend_3s,
   f.eye_close_dur_s, f.eye_run_len_frames, f.perclos_30s, f.blink_rate_30s,
   f.max_close_run_10s, f.time_since_last_blink_s,
   f.yawn_prob_ema_1s, f.mouth_open_run_s, f.mouth_open_rate_30s,
   f.time_since_last_yawn_s]

/-! ## Eye and yawn EMA updates (source lines 434-439 and 489-490)

The code checks isFinite(emaEye1) to decide whether the pair of eye EMAs is
still uninitialized (both start as NaN and are always written together), so the
pair is modelled as an optional pair.  The smoothing coefficients
1 - exp(-DT / 1) and 1 - exp(-DT / 5) are taken as parameters a1 and a5. -/

def updateEyeEmas (a1 a5 : ℚ) (st : Option (ℚ × ℚ)) (unifiedEyeProb : JNum) : ℚ × ℚ :=
  match st with
  | none => let v := finiteOr unifiedEyeProb 1.0; (v, v)
  | some (e1, e5) =>
      let v := finiteOr unifiedEyeProb e1
      (e1 + a1 * (v - e1), e5 + a5 * (v - e5))

/-- Source lines 489-490; the coefficient 1 - exp(-DT / 1) is the parameter. -/
def updateYawnEma (a1 : ℚ) (st : Option ℚ) (yawnProb : JNum) : ℚ :=
  match st with
  | none => finiteOr yawnProb 0
  | some y => let vy := finiteOr yawnProb y; y + a1 * (vy - y)

/-! ## Eye state machine (source lines 442-471, plus the featBuf push of
line 565, whose length the prolonged-closure lockout reads)

The full state carries the run list and times (rationals); EyeCore below
projects out the control fields, none of which ever reads a rational, which
makes long concrete traces kernel-evaluable.  The correspondence is proved
(stepEyeTick_toCore). -/

structure EyeRun where
  tEnd : ℚ
  lenFrames : ℕ
  durS : ℚ
deriving DecidableEq

structure EyeState where
  eyeClosedDebounced : Bool
  eyeDebOn : ℕ
  eyeDebOff : ℕ
  eyeRunLenFrames : ℕ
  prolongedEyeActive : Bool
  lastProlongStartFrame : ℤ
  blinkPulse : ℕ
  eyeRuns : List EyeRun
  lastBlinkEndTime : ℚ
  hasSeenBlink : Bool
  featBufLen : ℕ
deriving DecidableEq

/-- Initial values of the eye-side variables (source lines 293-299 and the
reset in startProcessing; featBuf starts empty). -/
def initEyeState : EyeState :=
  { eyeClosedDebounced := false, eyeDebOn := 0, eyeDebOff := 0, eyeRunLenFrames := 0,
    prolongedEyeActive := false, lastProlongStartFrame := -(10 ^ 9 : ℤ), blinkPulse := 0,
    eyeRuns := [], lastBlinkEndTime := 0, hasSeenBlink := false, featBufLen := 0 }

/-- Source lines 442-458: debouncing, run completion, pruning of runs older
than 30 s, blink classification. -/
def stepEyeDebounce (s : EyeState) (eyeClosedRaw : Bool) (nowSec : ℚ) : EyeState :=
  if eyeClosedRaw then
    let a := { s with eyeDebOn := s.eyeDebOn + 1, eyeDebOff := 0 }
    if ¬a.eyeClosedDebounced ∧ EYE_DEBOUNCE_ON_F ≤ a.eyeDebOn then
      { a with eyeClosedDebounced := true, eyeRunLenFrames := 0 }
    else a
  else
    let a := { s with eyeDebOff := s.eyeDebOff + 1, eyeDebOn := 0 }
    if a.eyeClosedDebounced ∧ EYE_DEBOUNCE_OFF_F ≤ a.eyeDebOff then
      let lenF := a.eyeRunLenFrames
      let b := { a with
        eyeRuns := List.dropWhile (fun r => decide (r.tEnd < nowSec - 30))
          (a.eyeRuns ++ [({ tEnd := nowSec, lenFrames := lenF,
                            durS := (lenF : ℚ) * DT } : EyeRun)]) }
      let c := if BLINK_MIN_F ≤ lenF ∧ lenF ≤ BLINK_MAX_F then
          { b with lastBlinkEndTime := nowSec, hasSeenBlink := true, blinkPulse := 1 }
        else b
      { c with eyeClosedDebounced := false, eyeRunLenFrames := 0 }
    else a

/-- The remainder of the tick after debouncing: run-length increment (459),
prolonged-closure lockout (461-468), blink display pulse (470-471), and the
featBuf append with eviction (565 and 246-247), of which only the length is
tracked here.  Returns the new state and the blink_state output. -/
def stepEyeRest (s1 : EyeState) : EyeState × Bool :=
  let s2 := if s1.eyeClosedDebounced then
      { s1 with eyeRunLenFrames := s1.eyeRunLenFrames + 1 } else s1
  let s3 :=
    if s2.eyeClosedDebounced then
      if ¬s2.prolongedEyeActive ∧ FRM_2P5S ≤ s2.eyeRunLenFrames ∧
          (BLINK_LOCK_FRM : ℤ) ≤ (s2.featBufLen : ℤ) - s2.lastProlongStartFrame then
        { s2 with prolongedEyeActive := true,
                  lastProlongStartFrame := (s2.featBufLen : ℤ) }
      else s2
    else { s2 with prolongedEyeActive := false }
  let blinkState := decide (0 < s3.blinkPulse) && !s3.eyeClosedDebounced
  let s4 := if 0 < s3.blinkPulse then { s3 with blinkPulse := s3.blinkPulse - 1 } else s3
  let s5 := { s4 with
    featBufLen := if TCN_WINDOW < s4.featBufLen + 1 then TCN_WINDOW else s4.featBufLen + 1 }
  (s5, blinkState)

/-- One whole tick of the eye pipeline: debounce (442-458) followed by the
rest of the tick (459-471 and the featBuf length update of 565). -/
def stepEyeTick (s : EyeState) (eyeClosedRaw : Bool) (nowSec : ℚ) : EyeState × Bool :=
  stepEyeRest (stepEyeDebounce s eyeClosedRaw nowSec)

/-- Runs the eye pipeline over a stream of raw closed/open ticks at the nominal
cadence, one tick every DT seconds starting at the given time. -/
def runEye (s : EyeState) (now : ℚ) : List Bool → EyeState
  | [] => s
  | x :: xs => runEye (stepEyeTick s x now).1 (now + DT) xs

/-- The control fields of the eye machine: every branch condition of
stepEyeTick reads only these (never a rational), so concrete traces evaluate
inside the kernel. -/
structure EyeCore where
  eyeClosedDebounced : Bool
  eyeDebOn : ℕ
  eyeDebOff : ℕ
  eyeRunLenFrames : ℕ
  prolongedEyeActive : Bool
  lastProlongStartFrame : ℤ
  blinkPulse : ℕ
  featBufLen : ℕ
deriving DecidableEq

def EyeState.toCore (s : EyeState) : EyeCore :=
  { eyeClosedDebounced := s.eyeClosedDebounced, eyeDebOn := s.eyeDebOn,
    eyeDebOff := s.eyeDebOff, eyeRunLenFrames := s.eyeRunLenFrames,
    prolongedEyeActive := s.prolongedEyeActive,
    lastProlongStartFrame := s.lastProlongStartFrame,
    blinkPulse := s.blinkPulse, featBufLen := s.featBufLen }

def initEyeCore : EyeCore := initEyeState.toCore

/-- stepEyeDebounce restricted to the control fields. -/
def stepEyeCoreDebounce (s : EyeCore) (eyeClosedRaw : Bool) : EyeCore :=
  if eyeClosedRaw then
    let a := { s with eyeDebOn := s.eyeDebOn + 1, eyeDebOff := 0 }
    if ¬a.eyeClosedDebounced ∧ EYE_DEBOUNCE_ON_F ≤ a.eyeDebOn then
      { a with eyeClosedDebounced := true, eyeRunLenFrames := 0 }
    else a
  else
    let a := { s with eyeDebOff := s.eyeDebOff + 1, eyeDebOn := 0 }
    if a.eyeClosedDebounced ∧ EYE_DEBOUNCE_OFF_F ≤ a.eyeDebOff then
      let b := if BLINK_MIN_F ≤ a.eyeRunLenFrames ∧ a.eyeRunLenFrames ≤ BLINK_MAX_F then
          { a with blinkPulse := 1 }
        else a
      { b with eyeClosedDebounced := false, eyeRunLenFrames := 0 }
    else a

/-- stepEyeRest restricted to the control fields. -/
def stepEyeCoreRest (s1 : EyeCore) : EyeCore :=
  let s2 := if s1.eyeClosedDebounced then
      { s1 with eyeRunLenFrames := s1.eyeRunLenFrames + 1 } else s1
  let s3 :=
    if s2.eyeClosedDebounced then
      if ¬s2.prolongedEyeActive ∧ FRM_2P5S ≤ s2.eyeRunLenFrames ∧
          (BLINK_LOCK_FRM : ℤ) ≤ (s2.featBufLen : ℤ) - s2.lastProlongStartFrame then
        { s2 with prolongedEyeActive := true,
                  lastProlongStartFrame := (s2.featBufLen : ℤ) }
      else s2
    else { s2 with prolongedEyeActive := false }
  let s4 := if 0 < s3.blinkPulse then { s3 with blinkPulse := s3.blinkPulse - 1 } else s3
  { s4 with
    featBufLen := if TCN_WINDOW < s4.featBufLen + 1 then TCN_WINDOW else s4.featBufLen + 1 }

/-- stepEyeTick restricted to the control fields. -/
def stepEyeCore (s : EyeCore) (eyeClosedRaw : Bool) : EyeCore :=
  stepEyeCoreRest (stepEyeCoreDebounce s eyeClosedRaw)

def runEyeCore (s : EyeCore) : List Bool → EyeCore
  | [] => s
  | x :: xs => runEyeCore (stepEyeCore s x) xs

/-! ## Mouth / yawn state machine (source lines 492-511)

The machine consumes the already-smoothed yawn EMA value of the tick; see
updateYawnEma for the smoothing step itself (source lines 489-490). -/

structure MouthRun where
  tEnd : ℚ
  durS : ℚ
deriving DecidableEq

structure MouthState where
  mouthOpen : Bool
  mouthRunFrames : ℕ
  yawnProlonged : Bool
  mouthRuns : List MouthRun
  yawnPulse : ℕ
  lastYawnEndTime : ℚ
deriving DecidableEq

def initMouthState : MouthState :=
  { mouthOpen := false, mouthRunFrames := 0, yawnProlonged := false,
    mouthRuns := [], yawnPulse := 0, lastYawnEndTime := 0 }

/-- Source lines 492-505: hysteresis with close at EMA less or equal 0.45 and
open at EMA greater or equal 0.55; on close the completed run is recorded,
pruned to 30 s, and classified a yawn event when its duration reaches
MOUTH_PROLONG_S. -/
def stepMouthHyst (s : MouthState) (yawnEma1 : ℚ) (nowSec : ℚ) : MouthState :=
  if s.mouthOpen then
    if yawnEma1 ≤ MOUTH_OFF_T then
      let durS := (s.mouthRunFrames : ℚ) * DT
      let a := { s with
        mouthRuns := List.dropWhile (fun r => decide (r.tEnd < nowSec - 30))
          (s.mouthRuns ++ [({ tEnd := nowSec, durS := durS } : MouthRun)]) }
      let b := if MOUTH_PROLONG_S ≤ durS then
          { a with yawnPulse := 1, lastYawnEndTime := nowSec }
        else a
      { b with mouthOpen := false, mouthRunFrames := 0, yawnProlonged := false }
    else
      let a := { s with mouthRunFrames := s.mouthRunFrames + 1 }
      if ¬a.yawnProlonged ∧ MOUTH_PROLONG_S ≤ (a.mouthRunFrames : ℚ) * DT then
        { a with yawnProlonged := true }
      else a
  else
    if MOUTH_ON_T ≤ yawnEma1 then
      { s with mouthOpen := true, mouthRunFrames := 1, yawnProlonged := false }
    else s

/-- Runs the mouth machine over a stream of per-tick EMA values at the nominal
cadence. -/
def runMouthHyst (s : MouthState) (now : ℚ) : List ℚ → MouthState
  | [] => s
  | e :: es => runMouthHyst (stepMouthHyst s e now) (now + DT) es

/-! ## Per-session normalization (source lines 169-196 and 237-248) -/

/-- The accumulation variables normMode, normT0, baseCnt, baseSum, baseSqSum
(source line 170). -/
structure NormAcc where
  normMode : Bool
  normT0 : ℚ
  baseCnt : ℕ
  baseSum : Fin 20 → ℚ
  baseSqSum : Fin 20 → ℚ

/-- The finalized per-session statistics baselineStats.mu / baselineStats.sigma
(source line 171); null is modelled by an Option around the pair. -/
structure Stats where
  mu : Fin 20 → ℚ
  sigma : Fin 20 → ℚ

/-- resetNorm (source lines 173-181): normMode takes the enabled flag; when
enabled, the clock and the accumulators restart (UI text updates omitted). -/
def resetNorm (normalizationEnabled : Bool) (now : ℚ) (a : NormAcc) : NormAcc :=
  if normalizationEnabled then
    { normMode := true, normT0 := now, baseCnt := 0,
      baseSum := fun _ => 0, baseSqSum := fun _ => 0 }
  else
    { a with normMode := false }

/-- addNormSample (source line 182). -/
def addNormSample (a : NormAcc) (vec : Fin 20 → ℚ) : NormAcc :=
  { a with baseSum := fun i => a.baseSum i + vec i,
           baseSqSum := fun i => a.baseSqSum i + vec i * vec i,
           baseCnt := a.baseCnt + 1 }

/-- finalizeNorm (source lines 183-191).  Returns the boolean result together
with the possibly updated stats; on failure (fewer than MIN_ACCEPTED samples)
the previous stats are left untouched.  Math.sqrt is the parameter sq. -/
def finalizeNorm (sq : ℚ → ℚ) (a : NormAcc) (prev : Option Stats) : Bool × Option Stats :=
  if ¬a.normMode then (true, prev)
  else if a.baseCnt < MIN_ACCEPTED then (false, prev)
  else
    (true, some
      { mu := fun i => a.baseSum i / (a.baseCnt : ℚ)
        sigma := fun i =>
          sq (max (1 / 1000000)
            (a.baseSqSum i / (a.baseCnt : ℚ) -
              (a.baseSum i / (a.baseCnt : ℚ)) * (a.baseSum i / (a.baseCnt : ℚ)))) })

/-- The z-scoring applied inside pushFrameFeatures (source lines 239-245):
row[i] = (v - mu) / max(1e-3, sigma), with mu = 0 and sigma = 1 when stats are
absent. -/
def normRow (st : Option Stats) (raw : Fin 20 → ℚ) : Fin 20 → ℚ :=
  fun i =>
    let mu := match st with | none => 0 | some t => t.mu i
    let s := max (1 / 1000) (match st with | none => 1 | some t => t.sigma i)
    (raw i - mu) / s

/-! ## Temporal window and classifier gating (source lines 237-269) -/

/-- The append-then-evict discipline of featBuf (source lines 246-247). -/
def pushWindow (buf : List (Fin 20 → ℚ)) (row : Fin 20 → ℚ) : List (Fin 20 → ℚ) :=
  let b := buf ++ [row]
  if TCN_WINDOW < b.length then b.tail else b

/-- pushFrameFeatures (source lines 237-248): z-score the raw row with the
current stats and append it to the window. -/
def pushFrameFeatures (st : Option Stats) (buf : List (Fin 20 → ℚ))
    (raw : Fin 20 → ℚ) : List (Fin 20 → ℚ) :=
  pushWindow buf (normRow st raw)

/-- What tcnPredictIfReady does on a tick, as a decision (source lines
252-257): no model, a warming report with the current count, an
awaiting-normalization report, or an actual classifier invocation. -/
inductive TcnStatus where
  | notLoaded
  | warming (k : ℕ)
  | awaitingMuSigma
  | predict
deriving DecidableEq

def tcnPredictIfReady (loaded : Bool) (muPresent : Bool) (normalizationEnabled : Bool)
    (buf : List (Fin 20 → ℚ)) : TcnStatus :=
  if ¬loaded then .notLoaded
  else if buf.length < TCN_WINDOW then
    (if muPresent then .warming buf.length
     else if normalizationEnabled then .awaitingMuSigma
     else .warming buf.length)
  else .predict

/-- The classifier display hysteresis (source lines 265-266). -/
def stepTcnHysteresis (tcnIsDrowsy : Bool) (prob : ℚ) : Bool :=
  if ¬tcnIsDrowsy ∧ (0.65 : ℚ) ≤ prob then true
  else if tcnIsDrowsy ∧ prob ≤ (0.55 : ℚ) then false
  else tcnIsDrowsy

/-! ## Whole-module mutable state and the session reset (source lines 126-321
and 602-621) -/

structure SessionState where
  runningFlag : Bool
  baselineCaptured : Bool
  eyeClosedDebounced : Bool
  eyeDebOn : ℕ
  eyeDebOff : ℕ
  eyeRunLenFrames : ℕ
  prolongedEyeActive : Bool
  lastProlongStartFrame : ℤ
  blinkPulse : ℕ
  eyeRuns : List EyeRun
  lastBlinkEndTime : ℚ
  hasSeenBlink : Bool
  emaEye1 : Option ℚ
  emaEye5 : Option ℚ
  rbEyeClosed : Ring
  yawnEma1 : Option ℚ
  mouthOpen : Bool
  mouthRunFrames : ℕ
  yawnProlonged : Bool
  mouthRuns : List MouthRun
  yawnPulse : ℕ
  lastYawnEndTime : ℚ
  nodActive : Bool
  stableFrames : ℕ
  dominantEye : String
  baselineR0 : Option (Fin 3 → Fin 3 → ℚ)
  featBuf : List (Fin 20 → ℚ)
  tcnIsDrowsy : Bool
  angleBufYaw : List ℚ
  angleBufPitch : List ℚ
  angleBufRoll : List ℚ
  deltaEMAyaw : ℚ
  deltaEMApitch : ℚ
  deltaEMAroll : ℚ
  norm : NormAcc
  baselineStats : Option Stats

/-- The state mutations performed by startProcessing (source lines 602-621):
the runningFlag and baselineCaptured flips of line 604 and the Reset states
block of lines 608-618.  Fields the function does not assign keep their value
from the previous session (notably angleBufs, deltaEMA, the norm accumulators,
and baselineStats, none of which appear in the block). -/
def startProcessingReset (s : SessionState) : SessionState :=
  { s with
    runningFlag := true, baselineCaptured := false,
    eyeClosedDebounced := false, eyeDebOn := 0, eyeDebOff := 0, eyeRunLenFrames := 0,
    prolongedEyeActive := false, lastProlongStartFrame := -(10 ^ 9 : ℤ), blinkPulse := 0,
    eyeRuns := [], lastBlinkEndTime := 0, hasSeenBlink := false,
    emaEye1 := none, emaEye5 := none, rbEyeClosed := s.rbEyeClosed.reset,
    yawnEma1 := none, mouthOpen := false, mouthRunFrames := 0, yawnProlonged := false,
    mouthRuns := [], yawnPulse := 0, lastYawnEndTime := 0,
    nodActive := false, stableFrames := 0, dominantEye := "both",
    baselineR0 := none, featBuf := [], tcnIsDrowsy := false }

/-- The normalization-collection block of a processed tick (source lines
554-562): while in collection mode the feature vector is accumulated; once the
window has elapsed, normMode is cleared and only then finalizeNorm is invoked,
so the guard at source line 184 sees normMode false.  Returns the
accumulator, the stats, and the boolean finalizeNorm reported (true also when
no finalization was due this tick). -/
def normCollectTick (sq : ℚ → ℚ) (nowSec : ℚ) (a : NormAcc) (prev : Option Stats)
    (vec : Fin 20 → ℚ) : NormAcc × Option Stats × Bool :=
  if a.normMode then
    let a1 := addNormSample a vec
    if NORM_SECONDS ≤ nowSec - a.normT0 then
      let a2 := { a1 with normMode := false }
      let r := finalizeNorm sq a2 prev
      (a2, r.2, r.1)
    else (a1, prev, true)
  else (a, prev, true)

/-! ## Concrete states and inputs used by individual proofs below -/

def noTwoAdjacentClosed : Bool → List Bool → Bool
  | _, [] => true
  | prev, x :: xs => (!(prev && x)) && noTwoAdjacentClosed x xs

/-- A debounced-closed state about to complete a run of recorded length n on
the next open tick. -/
def runEndState (n : ℕ) : EyeState :=
  { initEyeState with
    eyeClosedDebounced := true, eyeDebOff := 1, eyeRunLenFrames := n }

/-- A debounced-closed state right after a closed tick (off-counter zero). -/
def closedIdleState : EyeState :=
  { initEyeState with eyeClosedDebounced := true, eyeRunLenFrames := 4 }

def traceC1 : List Bool :=
  List.replicate 120 true ++ [false, false] ++ List.replicate 13 true ++
    [false, false] ++ List.replicate 28 true

/-- A concrete module state left behind by a previous session, exercising the
reset: every mutable variable holds a non-default value. -/
def staleSession : SessionState :=
  { runningFlag := false, baselineCaptured := true,
    eyeClosedDebounced := true, eyeDebOn := 3, eyeDebOff := 0, eyeRunLenFrames := 5,
    prolongedEyeActive := true, lastProlongStartFrame := 7, blinkPulse := 1,
    eyeRuns := [{ tEnd := 1, lenFrames := 3, durS := 1 / 5 }], lastBlinkEndTime := 2,
    hasSeenBlink := true, emaEye1 := some (1 / 2), emaEye5 := some (1 / 2),
    rbEyeClosed := Ring.init PER_30S, yawnEma1 := some (1 / 4),
    mouthOpen := true, mouthRunFrames := 4, yawnProlonged := true,
    mouthRuns := [{ tEnd := 1, durS := 1 / 2 }], yawnPulse := 1, lastYawnEndTime := 3,
    nodActive := true, stableFrames := 2, dominantEye := "left",
    baselineR0 := some (fun _ _ => 1), featBuf := [fun _ => 1], tcnIsDrowsy := true,
    angleBufYaw := [5], angleBufPitch := [6], angleBufRoll := [7],
    deltaEMAyaw := 1, deltaEMApitch := 2, deltaEMAroll := 3,
    norm := { normMode := true, normT0 := 0, baseCnt := 60,
              baseSum := fun _ => 60, baseSqSum := fun _ => 60 },
    baselineStats := some { mu := fun _ => 1, sigma := fun _ => 2 } }

/-- A per-tick input object whose adjusted yaw angle is non-finite and whose
other values are finite. -/
def objNaNYaw : RawObj :=
  { yawDeg := .nonfinite, pitchDeg := .num 0, rollDeg := .num 0,
    dYaw := .num 0, dPitch := .num 0, dRoll := .num 0,
    eye_open_unified := .num 1, ema_eye_open_1s := .num 1, ema_eye_open_5s := .num 1,
    eye_open_trend_3s := .num 0, eye_close_dur_s := .num 0,
    eye_run_len_frames := .num 0, perclos_30s := .num 0, blink_rate_30s := .num 0,
    max_close_run_10s := .num 0, time_since_last_blink_s := .num 0,
    yawn_prob_ema_1s := .num 0, mouth_open_run_s := .num 0,
    mouth_open_rate_30s := .num 0, time_since_last_yawn_s := .num 0 }

/-- A per-tick input object all of whose values are non-finite. -/
def objAllNaN : RawObj :=
  { yawDeg := .nonfinite, pitchDeg := .nonfinite, rollDeg := .nonfinite,
    dYaw := .nonfinite, dPitch := .nonfinite, dRoll := .nonfinite,
    eye_open_unified := .nonfinite, ema_eye_open_1s := .nonfinite,
    ema_eye_open_5s := .nonfinite, eye_open_trend_3s := .nonfinite,
    eye_close_dur_s := .nonfinite, eye_run_len_frames := .nonfinite,
    perclos_30s := .nonfinite, blink_rate_30s := .nonfinite,
    max_close_run_10s := .nonfinite, time_since_last_blink_s := .nonfinite,
    yawn_prob_ema_1s := .nonfinite, mouth_open_run_s := .nonfinite,
    mouth_open_rate_30s := .nonfinite, time_since_last_yawn_s := .nonfinite }

/-- The all-zero feature row. -/
def vec0 : Fin 20 → ℚ := fun _ => 0

/-- An accumulator as left by resetNorm at collection start (collection on). -/
def freshAcc (t0 : ℚ) : NormAcc :=
  { normMode := true, normT0 := t0, baseCnt := 0,
    baseSum := fun _ => 0, baseSqSum := fun _ => 0 }

/-- The all-one feature row. -/
def vec1 : Fin 20 → ℚ := fun _ => 1

/-- The accumulator after 60 all-one samples collected from a fresh start. -/
def acc60sample : NormAcc :=
  (List.replicate 60 vec1).foldl addNormSample (freshAcc 0)

/-- The value 1e-3 = sqrt(1e-6): a square-root routine that agrees with the
true square root at the only argument the proofs below apply it to. -/
def sqAt1em6 : ℚ → ℚ := fun _ => 1 / 1000

theorem FRM_2P5S_eq : (FRM_2P5S : ℤ) = round ((0.8 : ℚ) * TARGET_FPS) := by
  norm_num [FRM_2P5S, TARGET_FPS]

theorem BLINK_LOCK_FRM_eq : (BLINK_LOCK_FRM : ℤ) = round ((2.0 : ℚ) * TARGET_FPS) := by
  norm_num [BLINK_LOCK_FRM, TARGET_FPS]

theorem ringInv_init (n : ℕ) : RingInv n [] (Ring.init n) := by
  refine ⟨rfl, by simp [Ring.init], by simp [Ring.init], by simp, ?_⟩
  simp [trailingWindow, Ring.init]

theorem mod_ne_of_lt_sub {n j L : ℕ} (hjL : j < L) (hL : L < j + n) :
    j % n ≠ L % n := by
  intro h
  have hdvd : n ∣ L - j := (Nat.modEq_iff_dvd' (Nat.le_of_lt hjL)).1 h
  have hpos : 0 < L - j := by omega
  have := Nat.le_of_dvd hpos hdvd
  omega

theorem ringInv_push {n : ℕ} (hn : 0 < n) {xs : List ℚ} {r : Ring} (v : ℚ)
    (h : RingInv n xs r) : RingInv n (xs ++ [v]) (r.push v) := by
  obtain ⟨hN, hC, hI, hB, hS⟩ := h
  have hIlen : r.i = xs.length % n := hI
  have hlen : (xs ++ [v]).length = xs.length + 1 := by simp
  have hmod : (xs.length % n + 1) % n = (xs.length + 1) % n :=
    (Nat.mod_modEq xs.length n).add_right 1
  rcases Nat.lt_or_ge xs.length n with hL | hL
  · -- fill phase: count < n
    have hlt : r.count < r.n := by rw [hC, hN]; omega
    rw [Ring.push, if_pos hlt]
    refine ⟨hN, ?_, ?_, ?_, ?_⟩
    · dsimp only; rw [hC, hlen]; omega
    · dsimp only; rw [hI, hN, hlen, hmod]
    · intro j hj hjn
      dsimp only
      rw [hIlen]
      rcases Nat.lt_or_ge j xs.length with hjx | hjx
      · have hne : j % n ≠ xs.length % n := by
          rw [Nat.mod_eq_of_lt (by omega), Nat.mod_eq_of_lt hL]
          omega
        rw [Function.update_noteq hne]
        rw [List.getD_eq_getElem?_getD, List.getElem?_append_left hjx,
          ← List.getD_eq_getElem?_getD]
        exact hB j hjx (by omega)
      · have hj_eq : j = xs.length := by rw [hlen] at hj; omega
        subst hj_eq
        rw [Function.update_same]
        rw [List.getD_eq_getElem?_getD, List.getElem?_concat_length]
        rfl
    · dsimp only
      have h0 : xs.length + 1 - n = 0 := by omega
      have h0' : xs.length - n = 0 := by omega
      have h1 : trailingWindow n (xs ++ [v]) = xs ++ [v] := by
        simp [trailingWindow, hlen, h0]
      have h2 : trailingWindow n xs = xs := by simp [trailingWindow, h0']
      rw [h1, List.sum_append, hS, h2]
      simp
  · -- steady state: count = n
    have hCn : r.count = n := by rw [hC]; omega
    have hlt : ¬ r.count < r.n := by rw [hCn, hN]; omega
    rw [Ring.push, if_neg hlt]
    have hsub : (xs.length - n) % n = xs.length % n := by
      conv_rhs => rw [show xs.length = xs.length - n + n by omega]
      rw [Nat.add_mod_right]
    have hbufi : r.buf r.i = xs.getD (xs.length - n) 0 := by
      rw [hIlen, ← hsub]
      exact hB (xs.length - n) (by omega) (by omega)
    have hlt' : xs.length - n < xs.length := by omega
    refine ⟨hN, ?_, ?_, ?_, ?_⟩
    · dsimp only; rw [hC, hlen]; omega
    · dsimp only; rw [hI, hN, hlen, hmod]
    · intro j hj hjn
      dsimp only
      rw [hIlen]
      rw [hlen] at hj hjn
      rcases Nat.lt_or_ge j xs.length with hjx | hjx
      · have hne : j % n ≠ xs.length % n := mod_ne_of_lt_sub hjx (by omega)
        rw [Function.update_noteq hne]
        rw [List.getD_eq_getElem?_getD, List.getElem?_append_left hjx,
          ← List.getD_eq_getElem?_getD]
        exact hB j hjx (by omega)
      · have hj_eq : j = xs.length := by omega
        subst hj_eq
        rw [Function.update_same]
        rw [List.getD_eq_getElem?_getD, List.getElem?_concat_length]
        rfl
    · dsimp only
      rw [hIlen] at hbufi
      have hdrop : trailingWindow n xs =
          xs.getD (xs.length - n) 0 :: xs.drop (xs.length - n + 1) := by
        rw [trailingWindow, List.drop_eq_getElem_cons hlt']
        rw [List.getD_eq_getElem?_getD, List.getElem?_eq_getElem hlt']
        rfl
      have hdrop2 : trailingWindow n (xs ++ [v]) =
          xs.drop (xs.length - n + 1) ++ [v] := by
        rw [trailingWindow, hlen, show xs.length + 1 - n = (xs.length - n + 1) by omega]
        rw [List.drop_append_of_le_length (by omega)]
      rw [hdrop2, hIlen, hbufi, hS, hdrop]
      simp


theorem ringInv_pushSeq (n : ℕ) (hn : 0 < n) (xs : List ℚ) :
    RingInv n xs (pushSeq n xs) := by
  induction xs using List.reverseRecOn with
  | nil => exact ringInv_init n
  | append_singleton xs v ih =>
      have : pushSeq n (xs ++ [v]) = (pushSeq n xs).push v := by
        simp [pushSeq, List.foldl_append]
      rw [this]
      exact ringInv_push hn v ih

/-! ## Correspondence between the full eye machine and its control core -/

theorem stepEyeDebounce_toCore (s : EyeState) (raw : Bool) (t : ℚ) :
    (stepEyeDebounce s raw t).toCore = stepEyeCoreDebounce s.toCore raw := by
  cases raw <;>
    dsimp only [stepEyeDebounce, stepEyeCoreDebounce, EyeState.toCore] <;>
    split_ifs <;> rfl

theorem stepEyeRest_toCore (s : EyeState) :
    ((stepEyeRest s).1).toCore = stepEyeCoreRest s.toCore := by
  rcases s with ⟨deb, don, doff, rlf, pro, lps, bp, runs, lbt, hsb, fbl⟩
  cases deb <;>
    dsimp only [stepEyeRest, stepEyeCoreRest, EyeState.toCore] <;>
    split_ifs <;> rfl

theorem stepEyeTick_toCore (s : EyeState) (raw : Bool) (t : ℚ) :
    ((stepEyeTick s raw t).1).toCore = stepEyeCore s.toCore raw := by
  unfold stepEyeTick stepEyeCore
  rw [stepEyeRest_toCore, stepEyeDebounce_toCore]

theorem runEye_toCore (xs : List Bool) : ∀ (s : EyeState) (t : ℚ),
    (runEye s t xs).toCore = runEyeCore s.toCore xs := by
  induction xs with
  | nil => intro s t; rfl
  | cons x xs ih =>
      intro s t
      simp only [runEye, runEyeCore, ← stepEyeTick_toCore s x t]
      exact ih _ _

theorem runEyeCore_append (s : EyeCore) (xs ys : List Bool) :
    runEyeCore s (xs ++ ys) = runEyeCore (runEyeCore s xs) ys := by
  induction xs generalizing s with
  | nil => rfl
  | cons x xs ih => simp [runEyeCore, ih]

/-! ## Claim C4: rolling-average ring buffer -/

/-- C4: for every sequence of pushes into the eye-closed rolling-average ring
buffer (capacity PER_30S = 450), including sequences longer than the capacity,
after each push the count equals the number of samples resident in the
trailing window and never exceeds 450, and mean() equals the arithmetic mean
(sum divided by count) of exactly those resident samples. -/
theorem C4_ring_mean_trailing_window (xs : List ℚ) :
    (pushSeq PER_30S xs).count = (trailingWindow PER_30S xs).length ∧
    (pushSeq PER_30S xs).count ≤ 450 ∧
    (pushSeq PER_30S xs).mean =
      (trailingWindow PER_30S xs).sum / ((trailingWindow PER_30S xs).length : ℚ) := by
  have h450 : PER_30S = 450 := by norm_num [PER_30S, TARGET_FPS]
  obtain ⟨hN, hC, hI, hB, hS⟩ :=
    ringInv_pushSeq PER_30S (by norm_num [PER_30S, TARGET_FPS]) xs
  have hlen : (trailingWindow PER_30S xs).length = min xs.length PER_30S := by
    simp only [trailingWindow, List.length_drop]
    omega
  have hcl : (pushSeq PER_30S xs).count = (trailingWindow PER_30S xs).length := by
    rw [hC, hlen]
  refine ⟨hcl, by rw [hC]; omega, ?_⟩
  rw [Ring.mean]
  split_ifs with h0
  · rw [hS, hcl]
  · push_neg at h0
    have hx : xs.length = 0 := by
      rw [hC] at h0
      omega
    have hx0 : xs = [] := List.length_eq_zero.mp hx
    subst hx0
    simp [trailingWindow]

/-! ## Claim C10: EMA cold-start values -/

/-- C10: on the first tick of a session, with the eye EMA pair uninitialized,
a non-finite unified eye-openness probability makes both eye EMAs start at 1.0
(neither at the 0.5 openness default nor at 0); with the yawn EMA
uninitialized, a non-finite yawn probability makes it start at 0.0.  Stated
for every smoothing coefficient. -/
theorem C10_ema_cold_start (a1 a5 ay : ℚ) :
    updateEyeEmas a1 a5 none .nonfinite = (1, 1) ∧
    updateYawnEma ay none .nonfinite = 0 ∧
    (1 : ℚ) ≠ 0.5 ∧ (1 : ℚ) ≠ 0 := by
  refine ⟨?_, ?_, by norm_num, by norm_num⟩
  · simp [updateEyeEmas, finiteOr]
    norm_num
  · simp [updateYawnEma, finiteOr]

/-! ## Claim C3: session reset -/

/-- C3, counterexample: starting a new session does not clear every piece of
per-session mutable state.  On a concrete previous-session state, the pose-rate
EMAs, the pose history buffers, and the finalized NormalizationStats all
survive startProcessing unchanged and non-empty, so values from the previous
session influence the new session (the surviving stats are applied by
pushFrameFeatures, the surviving delta EMAs by getSmoothDelta). -/
theorem C3_counterexample_reset_incomplete :
    (startProcessingReset staleSession).deltaEMAyaw = 1 ∧ (1 : ℚ) ≠ 0 ∧
    (startProcessingReset staleSession).angleBufYaw = [5] ∧ ([5] : List ℚ) ≠ [] ∧
    (startProcessingReset staleSession).baselineStats.isSome = true := by
  refine ⟨rfl, by norm_num, rfl, by simp, rfl⟩

/-- C3, amended: startProcessing clears the eye and mouth debounce counters and
flags, the run lists, the eye-closed ring buffer, the eye and yawn EMA
accumulators, the baseline calibration reference, the temporal-window buffer,
and the classifier hysteresis flag; but the pose-rate EMAs, the pose history
buffers, the normalization accumulators, and the finalized NormalizationStats
are not assigned and keep their previous-session values. -/
theorem C3_amended_reset (s : SessionState) :
    (startProcessingReset s).runningFlag = true ∧
    (startProcessingReset s).baselineCaptured = false ∧
    (startProcessingReset s).eyeClosedDebounced = false ∧
    (startProcessingReset s).eyeDebOn = 0 ∧
    (startProcessingReset s).eyeDebOff = 0 ∧
    (startProcessingReset s).eyeRunLenFrames = 0 ∧
    (startProcessingReset s).prolongedEyeActive = false ∧
    (startProcessingReset s).lastProlongStartFrame = -(10 ^ 9 : ℤ) ∧
    (startProcessingReset s).blinkPulse = 0 ∧
    (startProcessingReset s).eyeRuns = [] ∧
    (startProcessingReset s).lastBlinkEndTime = 0 ∧
    (startProcessingReset s).hasSeenBlink = false ∧
    (startProcessingReset s).emaEye1 = none ∧
    (startProcessingReset s).emaEye5 = none ∧
    (startProcessingReset s).rbEyeClosed.sum = 0 ∧
    (startProcessingReset s).rbEyeClosed.count = 0 ∧
    (startProcessingReset s).rbEyeClosed.i = 0 ∧
    (∀ j, (startProcessingReset s).rbEyeClosed.buf j = 0) ∧
    (startProcessingReset s).yawnEma1 = none ∧
    (startProcessingReset s).mouthOpen = false ∧
    (startProcessingReset s).mouthRunFrames = 0 ∧
    (startProcessingReset s).yawnProlonged = false ∧
    (startProcessingReset s).mouthRuns = [] ∧
    (startProcessingReset s).yawnPulse = 0 ∧
    (startProcessingReset s).lastYawnEndTime = 0 ∧
    (startProcessingReset s).nodActive = false ∧
    (startProcessingReset s).stableFrames = 0 ∧
    (startProcessingReset s).baselineR0 = none ∧
    (startProcessingReset s).featBuf = [] ∧
    (startProcessingReset s).tcnIsDrowsy = false ∧
    (startProcessingReset s).angleBufYaw = s.angleBufYaw ∧
    (startProcessingReset s).angleBufPitch = s.angleBufPitch ∧
    (startProcessingReset s).angleBufRoll = s.angleBufRoll ∧
    (startProcessingReset s).deltaEMAyaw = s.deltaEMAyaw ∧
    (startProcessingReset s).deltaEMApitch = s.deltaEMApitch ∧
    (startProcessingReset s).deltaEMAroll = s.deltaEMAroll ∧
    (startProcessingReset s).norm = s.norm ∧
    (startProcessingReset s).baselineStats = s.baselineStats := by
  refine ⟨rfl, rfl, rfl, rfl, rfl, rfl, rfl, rfl, rfl, rfl, rfl, rfl, rfl, rfl,
    rfl, rfl, rfl, fun j => rfl, rfl, rfl, rfl, rfl, rfl, rfl, rfl, rfl, rfl,
    rfl, rfl, rfl, rfl, rfl, rfl, rfl, rfl, rfl, rfl, rfl⟩

/-! ## Claim C2: per-feature non-finite defaults -/

/-- C2, counterexample: a non-finite adjusted yaw angle is not replaced by any
default and flows into the assembled 20-element FeatureVector, so the vector
is not all-finite: the six pose angle and angular-rate inputs bypass the
finiteOr substitution in buildRawFeatures. -/
theorem C2_counterexample_nonfinite_pose :
    (buildRawFeatures objNaNYaw).yaw_adj = JNum.nonfinite ∧
    JNum.nonfinite ∈ featList (buildRawFeatures objNaNYaw) := by
  refine ⟨rfl, ?_⟩
  simp [featList]
  exact Or.inl rfl

/-- C2, amended: buildRawFeatures replaces a non-finite upstream value by the
documented default (0.5 for eye_open_unified, ema_eye_open_1s and
ema_eye_open_5s; 0.0 for the other ten guarded features) deterministically and
without an error, and the result of each guarded feature is always finite; but
the six pose angle and angular-rate features and eye_run_len_frames are copied
through unchanged, so a non-finite value there stays in the vector. -/
theorem C2_amended_defaults (obj : RawObj) :
    (obj.eye_open_unified = .nonfinite →
      (buildRawFeatures obj).eye_open_unified = .num 0.5) ∧
    (obj.ema_eye_open_1s = .nonfinite →
      (buildRawFeatures obj).ema_eye_open_1s = .num 0.5) ∧
    (obj.ema_eye_open_5s = .nonfinite →
      (buildRawFeatures obj).ema_eye_open_5s = .num 0.5) ∧
    (obj.eye_open_trend_3s = .nonfinite →
      (buildRawFeatures obj).eye_open_trend_3s = .num 0) ∧
    (obj.eye_close_dur_s = .nonfinite →
      (buildRawFeatures obj).eye_close_dur_s = .num 0) ∧
    (obj.perclos_30s = .nonfinite →
      (buildRawFeatures obj).perclos_30s = .num 0) ∧
    (obj.blink_rate_30s = .nonfinite →
      (buildRawFeatures obj).blink_rate_30s = .num 0) ∧
    (obj.max_close_run_10s = .nonfinite →
      (buildRawFeatures obj).max_close_run_10s = .num 0) ∧
    (obj.time_since_last_blink_s = .nonfinite →
      (buildRawFeatures obj).time_since_last_blink_s = .num 0) ∧
    (obj.yawn_prob_ema_1s = .nonfinite →
      (buildRawFeatures obj).yawn_prob_ema_1s = .num 0) ∧
    (obj.mouth_open_run_s = .nonfinite →
      (buildRawFeatures obj).mouth_open_run_s = .num 0) ∧
    (obj.mouth_open_rate_30s = .nonfinite →
      (buildRawFeatures obj).mouth_open_rate_30s = .num 0) ∧
    (obj.time_since_last_yawn_s = .nonfinite →
      (buildRawFeatures obj).time_since_last_yawn_s = .num 0) ∧
    (buildRawFeatures obj).eye_open_unified.isFin = true ∧
    (buildRawFeatures obj).ema_eye_open_1s.isFin = true ∧
    (buildRawFeatures obj).ema_eye_open_5s.isFin = true ∧
    (buildRawFeatures obj).eye_open_trend_3s.isFin = true ∧
    (buildRawFeatures obj).eye_close_dur_s.isFin = true ∧
    (buildRawFeatures obj).perclos_30s.isFin = true ∧
    (buildRawFeatures obj).blink_rate_30s.isFin = true ∧
    (buildRawFeatures obj).max_close_run_10s.isFin = true ∧
    (buildRawFeatures obj).time_since_last_blink_s.isFin = true ∧
    (buildRawFeatures obj).yawn_prob_ema_1s.isFin = true ∧
    (buildRawFeatures obj).mouth_open_run_s.isFin = true ∧
    (buildRawFeatures obj).mouth_open_rate_30s.isFin = true ∧
    (buildRawFeatures obj).time_since_last_yawn_s.isFin = true ∧
    (buildRawFeatures obj).yaw_adj = obj.yawDeg ∧
    (buildRawFeatures obj).pitch_adj = obj.pitchDeg ∧
    (buildRawFeatures obj).roll_adj = obj.rollDeg ∧
    (buildRawFeatures obj).dyaw_adj_per_s = obj.dYaw ∧
    (buildRawFeatures obj).dpitch_adj_per_s = obj.dPitch ∧
    (buildRawFeatures obj).droll_adj_per_s = obj.dRoll ∧
    (buildRawFeatures obj).eye_run_len_frames = obj.eye_run_len_frames := by
  refine ⟨?_, ?_, ?_, ?_, ?_, ?_, ?_, ?_, ?_, ?_, ?_, ?_, ?_,
    rfl, rfl, rfl, rfl, rfl, rfl, rfl, rfl, rfl, rfl, rfl, rfl, rfl,
    rfl, rfl, rfl, rfl, rfl, rfl, rfl⟩ <;>
    (intro h; simp [buildRawFeatures, h, finiteOr]; try norm_num)

/-- C2, witness: on the all-non-finite input object, every guarded feature
takes its documented default while the pose features stay non-finite. -/
theorem C2_amended_defaults_witness :
    (buildRawFeatures objAllNaN).eye_open_unified = .num 0.5 ∧
    (buildRawFeatures objAllNaN).ema_eye_open_1s = .num 0.5 ∧
    (buildRawFeatures objAllNaN).ema_eye_open_5s = .num 0.5 ∧
    (buildRawFeatures objAllNaN).eye_open_trend_3s = .num 0 ∧
    (buildRawFeatures objAllNaN).eye_close_dur_s = .num 0 ∧
    (buildRawFeatures objAllNaN).perclos_30s = .num 0 ∧
    (buildRawFeatures objAllNaN).blink_rate_30s = .num 0 ∧
    (buildRawFeatures objAllNaN).max_close_run_10s = .num 0 ∧
    (buildRawFeatures objAllNaN).time_since_last_blink_s = .num 0 ∧
    (buildRawFeatures objAllNaN).yawn_prob_ema_1s = .num 0 ∧
    (buildRawFeatures objAllNaN).mouth_open_run_s = .num 0 ∧
    (buildRawFeatures objAllNaN).mouth_open_rate_30s = .num 0 ∧
    (buildRawFeatures objAllNaN).time_since_last_yawn_s = .num 0 ∧
    (buildRawFeatures objAllNaN).yaw_adj = .nonfinite := by
  obtain ⟨h1, h2, h3, h4, h5, h6, h7, h8, h9, h10, h11, h12, h13,
    -, -, -, -, -, -, -, -, -, -, -, -, -, hy, -⟩ :=
    C2_amended_defaults objAllNaN
  exact ⟨h1 rfl, h2 rfl, h3 rfl, h4 rfl, h5 rfl, h6 rfl, h7 rfl, h8 rfl,
    h9 rfl, h10 rfl, h11 rfl, h12 rfl, h13 rfl, hy⟩

/-! ## Claim C7: mouth open/closed hysteresis dead-band -/

theorem stepMouthHyst_in_band (s : MouthState) (e t : ℚ)
    (hlo : (0.46 : ℚ) ≤ e) (hhi : e ≤ (0.54 : ℚ)) :
    (stepMouthHyst s e t).mouthOpen = s.mouthOpen := by
  have hoff : ¬ e ≤ MOUTH_OFF_T :=
    not_le.mpr (lt_of_lt_of_le (show MOUTH_OFF_T < (0.46 : ℚ) by
      rw [MOUTH_OFF_T]; norm_num) hlo)
  have hon : ¬ MOUTH_ON_T ≤ e :=
    not_le.mpr (lt_of_le_of_lt hhi (show (0.54 : ℚ) < MOUTH_ON_T by
      rw [MOUTH_ON_T]; norm_num))
  unfold stepMouthHyst
  by_cases ho : s.mouthOpen = true
  · rw [if_pos ho, if_neg hoff]
    dsimp only
    split_ifs <;> rfl
  · rw [if_neg ho, if_neg hon]

/-- Over a whole stream of in-band EMA values the open flag never changes. -/
theorem runMouthHyst_in_band (es : List ℚ) : ∀ (s : MouthState) (t : ℚ),
    (∀ e ∈ es, (0.46 : ℚ) ≤ e ∧ e ≤ (0.54 : ℚ)) →
    (runMouthHyst s t es).mouthOpen = s.mouthOpen := by
  induction es with
  | nil => intro s t _; rfl
  | cons e es ih =>
      intro s t h
      have he := h e (List.mem_cons_self e es)
      calc (runMouthHyst s t (e :: es)).mouthOpen
          = (runMouthHyst (stepMouthHyst s e t) (t + DT) es).mouthOpen := rfl
        _ = (stepMouthHyst s e t).mouthOpen :=
            ih _ _ (fun x hx => h x (List.mem_cons_of_mem _ hx))
        _ = s.mouthOpen := stepMouthHyst_in_band s e t he.1 he.2

/-- C7: the mouth state machine is dead-banded: for every input stream whose
smoothed yawn EMA values stay between 0.46 and 0.54 the open/closed state never
changes; from closed, a tick opens the mouth exactly when the EMA is at least
MOUTH_ON_T = 0.55; from open, a tick closes it exactly when the EMA is at most
MOUTH_OFF_T = 0.45. -/
theorem C7_mouth_hysteresis_dead_band :
    (∀ (s : MouthState) (t : ℚ) (es : List ℚ),
        (∀ e ∈ es, (0.46 : ℚ) ≤ e ∧ e ≤ (0.54 : ℚ)) →
        (runMouthHyst s t es).mouthOpen = s.mouthOpen) ∧
    (∀ (s : MouthState) (e t : ℚ), s.mouthOpen = false →
        ((stepMouthHyst s e t).mouthOpen = true ↔ MOUTH_ON_T ≤ e)) ∧
    (∀ (s : MouthState) (e t : ℚ), s.mouthOpen = true →
        ((stepMouthHyst s e t).mouthOpen = false ↔ e ≤ MOUTH_OFF_T)) := by
  refine ⟨fun s t es h => runMouthHyst_in_band es s t h, ?_, ?_⟩
  · intro s e t hc
    unfold stepMouthHyst
    rw [if_neg (show ¬ s.mouthOpen = true by simp [hc])]
    split_ifs with h1 <;> simp [h1, hc]
  · intro s e t ho
    unfold stepMouthHyst
    rw [if_pos ho]
    dsimp only
    split_ifs with h1 h2 <;> simp [h1, ho]

/-- C7, witness: a concrete in-band stream leaves the mouth closed; a tick at
EMA 0.6 opens from closed; a tick at EMA 0.4 closes from open. -/
theorem C7_mouth_hysteresis_witness :
    (runMouthHyst initMouthState 0 [23 / 50, 1 / 2, 27 / 50]).mouthOpen =
      initMouthState.mouthOpen ∧
    ((stepMouthHyst initMouthState (3 / 5) 0).mouthOpen = true ↔
      MOUTH_ON_T ≤ (3 / 5 : ℚ)) ∧
    ((stepMouthHyst { initMouthState with mouthOpen := true, mouthRunFrames := 2 }
        (2 / 5) 0).mouthOpen = false ↔ (2 / 5 : ℚ) ≤ MOUTH_OFF_T) := by
  refine ⟨C7_mouth_hysteresis_dead_band.1 _ _ _ ?_,
    C7_mouth_hysteresis_dead_band.2.1 _ _ _ rfl,
    C7_mouth_hysteresis_dead_band.2.2 _ _ _ rfl⟩
  intro e he
  fin_cases he <;> norm_num

/-! ## Claim C6: blink classification of completed runs -/

theorem dropWhile_concat_getLast? {α : Type} (p : α → Bool) (xs : List α) (r : α)
    (h : p r = false) :
    (List.dropWhile p (xs ++ [r])).getLast? = some r := by
  induction xs with
  | nil => simp [List.dropWhile, h]
  | cons x xs ih =>
      simp only [List.cons_append, List.dropWhile]
      cases hx : p x
      · exact List.getLast?_concat (x :: xs)
      · exact ih

/-- C6: when an open tick completes a debounced closed run (the off-counter
reaches EYE_DEBOUNCE_OFF_F with this tick), the run is recorded with frame
length equal to the current run counter, and it is classified a blink --
blink output pulse of this tick and time-since-last-blink set to now -- if and
only if that length lies in the inclusive interval
[BLINK_MIN_F, BLINK_MAX_F] = [2, 6]; in particular lengths 0, 1 and 7 are
never classified. -/
theorem C6_blink_classification (s : EyeState) (t : ℚ)
    (hdeb : s.eyeClosedDebounced = true) (hoff : 1 ≤ s.eyeDebOff)
    (hbp : s.blinkPulse = 0) :
    ((stepEyeTick s false t).2 = true ↔
      (BLINK_MIN_F ≤ s.eyeRunLenFrames ∧ s.eyeRunLenFrames ≤ BLINK_MAX_F)) ∧
    (BLINK_MIN_F ≤ s.eyeRunLenFrames ∧ s.eyeRunLenFrames ≤ BLINK_MAX_F →
      (stepEyeTick s false t).1.lastBlinkEndTime = t ∧
      (stepEyeTick s false t).1.hasSeenBlink = true) ∧
    (¬(BLINK_MIN_F ≤ s.eyeRunLenFrames ∧ s.eyeRunLenFrames ≤ BLINK_MAX_F) →
      (stepEyeTick s false t).1.lastBlinkEndTime = s.lastBlinkEndTime) ∧
    (stepEyeTick s false t).1.eyeRuns.getLast? =
      some { tEnd := t, lenFrames := s.eyeRunLenFrames,
             durS := (s.eyeRunLenFrames : ℚ) * DT } ∧
    (stepEyeTick s false t).1.eyeClosedDebounced = false := by
  have hoff2 : EYE_DEBOUNCE_OFF_F ≤ s.eyeDebOff + 1 := by
    rw [EYE_DEBOUNCE_OFF_F]; omega
  have hp : (fun r : EyeRun => decide (r.tEnd < t - 30))
      { tEnd := t, lenFrames := s.eyeRunLenFrames,
        durS := (s.eyeRunLenFrames : ℚ) * DT } = false := by
    simp only [decide_eq_false_iff_not]
    show ¬ (t < t - 30)
    linarith
  by_cases hb : BLINK_MIN_F ≤ s.eyeRunLenFrames ∧ s.eyeRunLenFrames ≤ BLINK_MAX_F
  · unfold stepEyeTick stepEyeDebounce stepEyeRest
    simp only [Bool.false_eq_true, if_false, hdeb, hbp, eq_true hoff2, eq_true hb,
      if_true, true_and, and_true]
    simp [dropWhile_concat_getLast? (fun r : EyeRun => decide (r.tEnd < t - 30))
      s.eyeRuns _ hp]
  · unfold stepEyeTick stepEyeDebounce stepEyeRest
    simp only [Bool.false_eq_true, if_false, hdeb, hbp, eq_true hoff2, eq_false hb,
      if_true, true_and, and_true]
    simp [dropWhile_concat_getLast? (fun r : EyeRun => decide (r.tEnd < t - 30))
      s.eyeRuns _ hp]

/-- C6, witness: a completed run of recorded length 3 is classified a blink
(output pulse on, time-since-last-blink set); a completed run of recorded
length 7 is not. -/
theorem C6_blink_classification_witness :
    ((stepEyeTick (runEndState 3) false 2).2 = true) ∧
    ((stepEyeTick (runEndState 3) false 2).1.lastBlinkEndTime = 2) ∧
    ((stepEyeTick (runEndState 7) false 2).2 ≠ true) := by
  obtain ⟨h1, h2, -, -, -⟩ := C6_blink_classification (runEndState 3) 2 rfl (by decide) rfl
  obtain ⟨h1b, -, -, -, -⟩ := C6_blink_classification (runEndState 7) 2 rfl (by decide) rfl
  exact ⟨h1.mpr (by decide), (h2 (by decide)).1,
    fun hc => absurd (h1b.mp hc) (by decide)⟩

/-! ## Claim C5: eye-closed debouncing -/

/-- The post-debounce part of the tick never changes the debounce fields. -/
theorem stepEyeCoreRest_preserves (d : EyeCore) :
    (stepEyeCoreRest d).eyeClosedDebounced = d.eyeClosedDebounced ∧
    (stepEyeCoreRest d).eyeDebOn = d.eyeDebOn ∧
    (stepEyeCoreRest d).eyeDebOff = d.eyeDebOff := by
  rcases d with ⟨deb, don, doff, rlf, pro, lps, bp, fbl⟩
  cases deb <;>
    dsimp only [stepEyeCoreRest] <;>
    split_ifs <;>
    exact ⟨rfl, rfl, rfl⟩

theorem stepEyeCoreDebounce_open_of_open (c : EyeCore)
    (h : c.eyeClosedDebounced = false) :
    stepEyeCoreDebounce c false = { c with eyeDebOff := c.eyeDebOff + 1, eyeDebOn := 0 } := by
  simp [stepEyeCoreDebounce, h]

theorem stepEyeCoreDebounce_closed_first (c : EyeCore)
    (h : c.eyeClosedDebounced = false) (h0 : c.eyeDebOn = 0) :
    stepEyeCoreDebounce c true = { c with eyeDebOn := 1, eyeDebOff := 0 } := by
  simp [stepEyeCoreDebounce, h, h0, EYE_DEBOUNCE_ON_F]

theorem stepEyeCoreDebounce_closed_second (c : EyeCore)
    (h : c.eyeClosedDebounced = false) (h1 : c.eyeDebOn = 1) :
    stepEyeCoreDebounce c true =
      { c with eyeClosedDebounced := true, eyeDebOn := 2, eyeDebOff := 0,
               eyeRunLenFrames := 0 } := by
  simp [stepEyeCoreDebounce, h, h1, EYE_DEBOUNCE_ON_F]

theorem stepEyeCoreDebounce_open_first (c : EyeCore)
    (h : c.eyeClosedDebounced = true) (h0 : c.eyeDebOff = 0) :
    stepEyeCoreDebounce c false = { c with eyeDebOff := 1, eyeDebOn := 0 } := by
  simp [stepEyeCoreDebounce, h, h0, EYE_DEBOUNCE_OFF_F]

theorem stepEyeCoreDebounce_open_second (c : EyeCore)
    (h : c.eyeClosedDebounced = true) (h1 : 1 ≤ c.eyeDebOff) :
    (stepEyeCoreDebounce c false).eyeClosedDebounced = false := by
  have h2 : EYE_DEBOUNCE_OFF_F ≤ c.eyeDebOff + 1 := by rw [EYE_DEBOUNCE_OFF_F]; omega
  simp only [stepEyeCoreDebounce, Bool.false_eq_true, if_false, h, eq_true h2,
    true_and, and_true, if_true]

theorem stepEyeCore_open_of_open (c : EyeCore) (h : c.eyeClosedDebounced = false) :
    (stepEyeCore c false).eyeClosedDebounced = false ∧
    (stepEyeCore c false).eyeDebOn = 0 := by
  have hp := stepEyeCoreRest_preserves (stepEyeCoreDebounce c false)
  unfold stepEyeCore
  rw [hp.1, hp.2.1, stepEyeCoreDebounce_open_of_open c h]
  exact ⟨h, rfl⟩

theorem stepEyeCore_closed_first (c : EyeCore) (h : c.eyeClosedDebounced = false)
    (h0 : c.eyeDebOn = 0) :
    (stepEyeCore c true).eyeClosedDebounced = false ∧
    (stepEyeCore c true).eyeDebOn = 1 := by
  have hp := stepEyeCoreRest_preserves (stepEyeCoreDebounce c true)
  unfold stepEyeCore
  rw [hp.1, hp.2.1, stepEyeCoreDebounce_closed_first c h h0]
  exact ⟨h, rfl⟩

theorem stepEyeCore_closed_second (c : EyeCore) (h : c.eyeClosedDebounced = false)
    (h1 : c.eyeDebOn = 1) :
    (stepEyeCore c true).eyeClosedDebounced = true := by
  have hp := stepEyeCoreRest_preserves (stepEyeCoreDebounce c true)
  unfold stepEyeCore
  rw [hp.1, stepEyeCoreDebounce_closed_second c h h1]

theorem stepEyeCore_open_first (c : EyeCore) (h : c.eyeClosedDebounced = true)
    (h0 : c.eyeDebOff = 0) :
    (stepEyeCore c false).eyeClosedDebounced = true ∧
    (stepEyeCore c false).eyeDebOff = 1 := by
  have hp := stepEyeCoreRest_preserves (stepEyeCoreDebounce c false)
  unfold stepEyeCore
  rw [hp.1, hp.2.2, stepEyeCoreDebounce_open_first c h h0]
  exact ⟨h, rfl⟩

theorem stepEyeCore_open_second (c : EyeCore) (h : c.eyeClosedDebounced = true)
    (h1 : 1 ≤ c.eyeDebOff) :
    (stepEyeCore c false).eyeClosedDebounced = false := by
  have hp := stepEyeCoreRest_preserves (stepEyeCoreDebounce c false)
  unfold stepEyeCore
  rw [hp.1]
  exact stepEyeCoreDebounce_open_second c h h1

theorem runEyeCore_no_adjacent (xs : List Bool) : ∀ (c : EyeCore) (prev : Bool),
    noTwoAdjacentClosed prev xs = true →
    c.eyeClosedDebounced = false →
    c.eyeDebOn ≤ (if prev then 1 else 0) →
    (runEyeCore c xs).eyeClosedDebounced = false := by
  induction xs with
  | nil => intro c prev _ h _; exact h
  | cons x xs ih =>
      intro c prev hadj h hle
      rw [noTwoAdjacentClosed] at hadj
      simp only [Bool.and_eq_true, Bool.not_eq_true] at hadj
      obtain ⟨hpx, hrest⟩ := hadj
      cases x with
      | false =>
          have hstep := stepEyeCore_open_of_open c h
          exact ih _ false hrest hstep.1 (by simp [hstep.2])
      | true =>
          have hprev : prev = false := by
            cases prev <;> simp_all
          have h0 : c.eyeDebOn = 0 := by
            rw [hprev] at hle; simpa using hle
          have hstep := stepEyeCore_closed_first c h h0
          exact ih _ true hrest hstep.1 (by simp [hstep.2])

/-- C5: from the open state, a stream with no two adjacent raw-closed ticks
(in particular one isolated closed tick followed by open) never produces a
transition to debounced-closed; from any open state following an open tick,
two consecutive raw-closed ticks produce the transition exactly on the second
one; symmetrically, from any debounced-closed state following a closed tick,
leaving the closed state happens exactly on the second consecutive raw-open
tick. -/
theorem C5_eye_debounce :
    (∀ (t : ℚ) (xs : List Bool), noTwoAdjacentClosed false xs = true →
        (runEye initEyeState t xs).eyeClosedDebounced = false) ∧
    (∀ (s : EyeState) (t1 t2 : ℚ), s.eyeClosedDebounced = false → s.eyeDebOn = 0 →
        ((stepEyeTick s true t1).1.eyeClosedDebounced = false ∧
         (stepEyeTick (stepEyeTick s true t1).1 true t2).1.eyeClosedDebounced = true)) ∧
    (∀ (s : EyeState) (t1 t2 : ℚ), s.eyeClosedDebounced = true → s.eyeDebOff = 0 →
        ((stepEyeTick s false t1).1.eyeClosedDebounced = true ∧
         (stepEyeTick (stepEyeTick s false t1).1 false t2).1.eyeClosedDebounced = false)) := by
  have hfield : ∀ (s : EyeState), s.eyeClosedDebounced = s.toCore.eyeClosedDebounced :=
    fun _ => rfl
  refine ⟨?_, ?_, ?_⟩
  · intro t xs hadj
    rw [hfield, runEye_toCore xs initEyeState t]
    exact runEyeCore_no_adjacent xs _ false hadj rfl (by simp [initEyeState, EyeState.toCore])
  · intro s t1 t2 h h0
    have hc1 := stepEyeCore_closed_first s.toCore h h0
    constructor
    · rw [hfield, stepEyeTick_toCore]
      exact hc1.1
    · rw [hfield, stepEyeTick_toCore, stepEyeTick_toCore]
      exact stepEyeCore_closed_second _ hc1.1 hc1.2
  · intro s t1 t2 h h0
    have hc1 := stepEyeCore_open_first s.toCore h h0
    constructor
    · rw [hfield, stepEyeTick_toCore]
      exact hc1.1
    · rw [hfield, stepEyeTick_toCore, stepEyeTick_toCore]
      exact stepEyeCore_open_second _ hc1.1 (by rw [hc1.2])

/-- C5, witness: a concrete isolated-closed-tick stream stays undebounced; two
consecutive closed ticks from start debounce on the second; two consecutive
open ticks from closed leave on the second. -/
theorem C5_eye_debounce_witness :
    (runEye initEyeState 0 [true, false, true, false]).eyeClosedDebounced = false ∧
    (stepEyeTick (stepEyeTick initEyeState true 0).1 true DT).1.eyeClosedDebounced = true ∧
    (stepEyeTick (stepEyeTick closedIdleState false 0).1 false DT).1.eyeClosedDebounced
      = false := by
  exact ⟨C5_eye_debounce.1 0 _ (by decide),
    (C5_eye_debounce.2.1 initEyeState 0 DT rfl rfl).2,
    (C5_eye_debounce.2.2 closedIdleState 0 DT rfl rfl).2⟩

/-! ## Claim C1: prolonged-closure lockout (code bug)

The lockout compares BLINK_LOCK_FRM with featBuf.length minus the featBuf
length recorded at the previous prolonged-episode start.  featBuf.length is
capped at TCN_WINDOW = 90 (one row per tick is pushed, the oldest evicted), so
it counts ticks only until saturation; once an episode starts at the saturated
length, the difference stays 0 forever and no later episode can trigger.  The
trace below exhibits this: the eye closes at tick 0, the first episode starts
at tick 12, the eye reopens (ticks 120-121), closes again and a second episode
starts at tick 134 (featBuf saturated, lockout start recorded as 90); after
opening at ticks 135-136 the eye closes from tick 137 on, the run length
reaches FRM_2P5S = 12 at tick 148, and at tick 164 a whole
BLINK_LOCK_FRM = 30 ticks have elapsed since the tick-134 episode start, yet
the flag stays false (and stays false forever after). -/

set_option maxRecDepth 40000 in
theorem eyeChunkA : runEyeCore initEyeCore (List.replicate 60 true) =
    { eyeClosedDebounced := true, eyeDebOn := 60, eyeDebOff := 0,
      eyeRunLenFrames := 59, prolongedEyeActive := true,
      lastProlongStartFrame := 12, blinkPulse := 0, featBufLen := 60 } := by
  decide

set_option maxRecDepth 40000 in
theorem eyeChunkB :
    runEyeCore
      { eyeClosedDebounced := true, eyeDebOn := 60, eyeDebOff := 0,
        eyeRunLenFrames := 59, prolongedEyeActive := true,
        lastProlongStartFrame := 12, blinkPulse := 0, featBufLen := 60 }
      (List.replicate 60 true) =
    { eyeClosedDebounced := true, eyeDebOn := 120, eyeDebOff := 0,
      eyeRunLenFrames := 119, prolongedEyeActive := true,
      lastProlongStartFrame := 12, blinkPulse := 0, featBufLen := 90 } := by
  decide

set_option maxRecDepth 40000 in
theorem eyeChunkC :
    runEyeCore
      { eyeClosedDebounced := true, eyeDebOn := 120, eyeDebOff := 0,
        eyeRunLenFrames := 119, prolongedEyeActive := true,
        lastProlongStartFrame := 12, blinkPulse := 0, featBufLen := 90 }
      ([false, false] ++ List.replicate 12 true) =
    { eyeClosedDebounced := true, eyeDebOn := 12, eyeDebOff := 0,
      eyeRunLenFrames := 11, prolongedEyeActive := false,
      lastProlongStartFrame := 12, blinkPulse := 0, featBufLen := 90 } := by
  decide

set_option maxRecDepth 40000 in
theorem eyeChunkD :
    runEyeCore
      { eyeClosedDebounced := true, eyeDebOn := 12, eyeDebOff := 0,
        eyeRunLenFrames := 11, prolongedEyeActive := false,
        lastProlongStartFrame := 12, blinkPulse := 0, featBufLen := 90 }
      ([true] ++ [false, false] ++ List.replicate 28 true) =
    { eyeClosedDebounced := true, eyeDebOn := 28, eyeDebOff := 0,
      eyeRunLenFrames := 27, prolongedEyeActive := false,
      lastProlongStartFrame := 90, blinkPulse := 0, featBufLen := 90 } := by
  decide

set_option maxRecDepth 40000 in
theorem eyeChunkE :
    runEyeCore
      { eyeClosedDebounced := true, eyeDebOn := 12, eyeDebOff := 0,
        eyeRunLenFrames := 11, prolongedEyeActive := false,
        lastProlongStartFrame := 12, blinkPulse := 0, featBufLen := 90 }
      [true] =
    { eyeClosedDebounced := true, eyeDebOn := 13, eyeDebOff := 0,
      eyeRunLenFrames := 12, prolongedEyeActive := true,
      lastProlongStartFrame := 90, blinkPulse := 0, featBufLen := 90 } := by
  decide

/-- C1 (code bug): on the 165-tick trace traceC1, the second prolonged episode
activates during tick 134 (after 135 ticks the flag is on, after 134 it is
not); at the end of the trace (tick 164) the eye has been debounced-closed
with run length 27 at least FRM_2P5S = 12 for ticks, and
BLINK_LOCK_FRM = 30 ticks have elapsed since the tick-134 episode start
(164 - 134 = 30), so by the claim the prolonged flag must be active, but it is
false: the featBuf-length-based lockout has saturated. -/
theorem C1_prolonged_lockout_saturated :
    (runEye initEyeState 0 (List.replicate 120 true ++ [false, false] ++
      List.replicate 12 true)).prolongedEyeActive = false ∧
    (runEye initEyeState 0 (List.replicate 120 true ++ [false, false] ++
      List.replicate 13 true)).prolongedEyeActive = true ∧
    (runEye initEyeState 0 traceC1).eyeClosedDebounced = true ∧
    FRM_2P5S ≤ (runEye initEyeState 0 traceC1).eyeRunLenFrames ∧
    (runEye initEyeState 0 traceC1).prolongedEyeActive = false := by
  have hpro : ∀ (s : EyeState), s.prolongedEyeActive = s.toCore.prolongedEyeActive :=
    fun _ => rfl
  have hdeb : ∀ (s : EyeState), s.eyeClosedDebounced = s.toCore.eyeClosedDebounced :=
    fun _ => rfl
  have hrun : ∀ (s : EyeState), s.eyeRunLenFrames = s.toCore.eyeRunLenFrames :=
    fun _ => rfl
  have h120 : List.replicate (120 : ℕ) true =
      List.replicate 60 true ++ List.replicate 60 true := by
    rw [← List.replicate_add]
  have h13 : List.replicate (13 : ℕ) true = List.replicate 12 true ++ [true] := by
    decide
  have e134 : runEyeCore initEyeCore (List.replicate 120 true ++ [false, false] ++
      List.replicate 12 true) =
      { eyeClosedDebounced := true, eyeDebOn := 12, eyeDebOff := 0,
        eyeRunLenFrames := 11, prolongedEyeActive := false,
        lastProlongStartFrame := 12, blinkPulse := 0, featBufLen := 90 } := by
    rw [h120, show (List.replicate 60 true ++ List.replicate 60 true) ++ [false, false] ++
        List.replicate 12 true = List.replicate 60 true ++ (List.replicate 60 true ++
        ([false, false] ++ List.replicate 12 true)) by simp]
    rw [runEyeCore_append, runEyeCore_append, eyeChunkA, eyeChunkB, eyeChunkC]
  have e135 : runEyeCore initEyeCore (List.replicate 120 true ++ [false, false] ++
      List.replicate 13 true) =
      { eyeClosedDebounced := true, eyeDebOn := 13, eyeDebOff := 0,
        eyeRunLenFrames := 12, prolongedEyeActive := true,
        lastProlongStartFrame := 90, blinkPulse := 0, featBufLen := 90 } := by
    rw [h13, show List.replicate 120 true ++ [false, false] ++
        (List.replicate 12 true ++ [true]) = (List.replicate 120 true ++ [false, false] ++
        List.replicate 12 true) ++ [true] by simp]
    rw [runEyeCore_append, e134, eyeChunkE]
  have e165 : runEyeCore initEyeCore traceC1 =
      { eyeClosedDebounced := true, eyeDebOn := 28, eyeDebOff := 0,
        eyeRunLenFrames := 27, prolongedEyeActive := false,
        lastProlongStartFrame := 90, blinkPulse := 0, featBufLen := 90 } := by
    rw [show traceC1 = (List.replicate 120 true ++ [false, false] ++
        List.replicate 12 true) ++ ([true] ++ [false, false] ++
        List.replicate 28 true) by simp [traceC1, h13]]
    rw [runEyeCore_append, e134, eyeChunkD]
  have hcore : initEyeState.toCore = initEyeCore := rfl
  refine ⟨?_, ?_, ?_, ?_, ?_⟩
  · rw [hpro, runEye_toCore, hcore, e134]
  · rw [hpro, runEye_toCore, hcore, e135]
  · rw [hdeb, runEye_toCore, hcore, e165]
  · rw [hrun, runEye_toCore, hcore, e165]; decide
  · rw [hpro, runEye_toCore, hcore, e165]

/-! ## Claim C8: temporal window discipline and classifier gating -/

theorem pushWindow_foldl (rows : List (Fin 20 → ℚ)) :
    rows.foldl pushWindow [] = rows.drop (rows.length - TCN_WINDOW) := by
  induction rows using List.reverseRecOn with
  | nil => rfl
  | append_singleton rows r ih =>
      rw [List.foldl_append, List.foldl_cons, List.foldl_nil, ih, pushWindow]
      have hlen : (rows ++ [r]).length = rows.length + 1 := by simp
      have hT : (1 : ℕ) ≤ TCN_WINDOW := by norm_num [TCN_WINDOW]
      rcases Nat.lt_or_ge rows.length TCN_WINDOW with hL | hL
      · have h0 : rows.length - TCN_WINDOW = 0 := by omega
        have h0' : rows.length + 1 - TCN_WINDOW = 0 := by omega
        rw [h0, List.drop_zero, hlen, h0', List.drop_zero, if_neg (by omega)]
      · have hlen_prev : (rows.drop (rows.length - TCN_WINDOW)).length = TCN_WINDOW := by
          rw [List.length_drop]; omega
        have hgt : TCN_WINDOW <
            (rows.drop (rows.length - TCN_WINDOW) ++ [r]).length := by
          rw [List.length_append, hlen_prev]; simp
        rw [if_pos hgt, hlen, ← List.drop_one,
          List.drop_append_of_le_length (by rw [hlen_prev]; norm_num [TCN_WINDOW]),
          List.drop_drop,
          List.drop_append_of_le_length (show rows.length + 1 - TCN_WINDOW ≤ rows.length by omega)]
        rw [show rows.length - TCN_WINDOW + 1 = rows.length + 1 - TCN_WINDOW by omega]


/-- The featBuf contents after any number of pushFrameFeatures calls: the
z-scored rows, restricted to the trailing TCN_WINDOW of them. -/
theorem pushFrameFeatures_foldl (st : Option Stats) (rows : List (Fin 20 → ℚ)) :
    rows.foldl (pushFrameFeatures st) [] =
      (rows.map (normRow st)).drop (rows.length - TCN_WINDOW) := by
  have hmap : rows.foldl (pushFrameFeatures st) [] =
      (rows.map (normRow st)).foldl pushWindow [] := by
    rw [List.foldl_map]
    rfl
  rw [hmap, pushWindow_foldl, List.length_map]

theorem tcnPredictIfReady_eq_predict_iff (muP nE : Bool) (buf : List (Fin 20 → ℚ))
    (hle : buf.length ≤ TCN_WINDOW) :
    tcnPredictIfReady true muP nE buf = .predict ↔ buf.length = TCN_WINDOW := by
  unfold tcnPredictIfReady
  rw [if_neg (by simp)]
  by_cases hlt : buf.length < TCN_WINDOW
  · rw [if_pos hlt]
    constructor
    · intro h
      split_ifs at h <;> simp_all
    · intro h
      omega
  · rw [if_neg hlt]
    constructor
    · intro _
      omega
    · intro _
      rfl

theorem tcnPredictIfReady_warming_report (muP nE : Bool) (buf : List (Fin 20 → ℚ))
    (hlt : buf.length < TCN_WINDOW) (h : muP = true ∨ nE = false) :
    tcnPredictIfReady true muP nE buf = .warming buf.length := by
  unfold tcnPredictIfReady
  rw [if_neg (by simp), if_pos hlt]
  rcases h with h | h
  · rw [if_pos h]
  · by_cases hm : muP = true
    · rw [if_pos hm]
    · rw [if_neg hm, if_neg (by simp [h])]

/-- C8, amended: the temporal window never exceeds TCN_WINDOW = 90 entries;
on overflow exactly the oldest entry is evicted (the buffer always equals the
trailing 90 of the pushed, z-scored rows, in FIFO order); with the model
loaded the classifier is invoked exactly when the buffer length is 90; below
90 a warming-up progress report with the current count is produced whenever
stats are present or normalization is disabled -- but not in the remaining
case, see the counterexample. -/
theorem C8_amended_window (st : Option Stats) (muP nE : Bool)
    (rows : List (Fin 20 → ℚ)) :
    rows.foldl (pushFrameFeatures st) [] =
      (rows.map (normRow st)).drop (rows.length - TCN_WINDOW) ∧
    (rows.foldl (pushFrameFeatures st) []).length ≤ TCN_WINDOW ∧
    (tcnPredictIfReady true muP nE (rows.foldl (pushFrameFeatures st) []) = .predict ↔
      (rows.foldl (pushFrameFeatures st) []).length = TCN_WINDOW) ∧
    ((rows.foldl (pushFrameFeatures st) []).length < TCN_WINDOW →
      (muP = true ∨ nE = false) →
      tcnPredictIfReady true muP nE (rows.foldl (pushFrameFeatures st) []) =
        .warming (rows.foldl (pushFrameFeatures st) []).length) := by
  have h1 := pushFrameFeatures_foldl st rows
  have hle : (rows.foldl (pushFrameFeatures st) []).length ≤ TCN_WINDOW := by
    rw [h1, List.length_drop, List.length_map]
    omega
  exact ⟨h1, hle, tcnPredictIfReady_eq_predict_iff muP nE _ hle,
    fun hlt h => tcnPredictIfReady_warming_report muP nE _ hlt h⟩

/-- C8, counterexample: with normalization enabled and stats not yet
finalized, a 5-entry buffer yields the awaiting-normalization report, not a
warming-up progress report, contradicting the claim that a warming-up
progress status is reported whenever the buffer is below 90. -/
theorem C8_counterexample_awaiting_status :
    tcnPredictIfReady true false true
      ((List.replicate 5 vec0).foldl (pushFrameFeatures none) []) = .awaitingMuSigma ∧
    ((List.replicate 5 vec0).foldl (pushFrameFeatures none) []).length = 5 ∧
    TcnStatus.awaitingMuSigma ≠ TcnStatus.warming 5 := by
  have h1 := pushFrameFeatures_foldl none (List.replicate 5 vec0)
  have hlen : ((List.replicate 5 vec0).foldl (pushFrameFeatures none) []).length = 5 := by
    rw [h1, List.length_drop, List.length_map, List.length_replicate]
    norm_num [TCN_WINDOW]
  refine ⟨?_, hlen, by decide⟩
  unfold tcnPredictIfReady
  rw [if_neg (by simp), if_pos (by rw [hlen]; norm_num [TCN_WINDOW]),
    if_neg (by simp), if_pos rfl]

/-- C8, witness: with stats present (or normalization disabled), a 5-entry
buffer yields the warming-up progress report with count 5, and at that length
the classifier is not invoked. -/
theorem C8_amended_window_witness :
    tcnPredictIfReady true true true
      ((List.replicate 5 vec0).foldl (pushFrameFeatures none) []) =
      .warming ((List.replicate 5 vec0).foldl (pushFrameFeatures none) []).length ∧
    ¬ (tcnPredictIfReady true true true
        ((List.replicate 5 vec0).foldl (pushFrameFeatures none) []) = .predict) := by
  have h := C8_amended_window none true true (List.replicate 5 vec0)
  have hlt : ((List.replicate 5 vec0).foldl (pushFrameFeatures none) []).length
      < TCN_WINDOW := by
    rw [h.1, List.length_drop, List.length_map, List.length_replicate]
    norm_num [TCN_WINDOW]
  refine ⟨h.2.2.2 hlt (Or.inl rfl), fun hc => ?_⟩
  have := (h.2.2.1).mp hc
  omega

/-! ## Claim C9: normalization finalization and application -/

theorem foldl_addNormSample_replicate (n : ℕ) (vec : Fin 20 → ℚ) : ∀ (a : NormAcc),
    (List.replicate n vec).foldl addNormSample a =
      { a with baseCnt := a.baseCnt + n,
               baseSum := fun i => a.baseSum i + n * vec i,
               baseSqSum := fun i => a.baseSqSum i + n * (vec i * vec i) } := by
  induction n with
  | zero =>
      intro a
      rcases a with ⟨m, t0, c, f, g⟩
      simp only [List.replicate, List.foldl_nil]
      rw [NormAcc.mk.injEq]
      refine ⟨rfl, rfl, rfl, ?_, ?_⟩ <;> funext i <;> push_cast <;> ring
  | succ n ih =>
      intro a
      rw [List.replicate_succ, List.foldl_cons, ih (addNormSample a vec)]
      rcases a with ⟨m, t0, c, f, g⟩
      rw [NormAcc.mk.injEq]
      refine ⟨rfl, rfl, by dsimp [addNormSample]; omega, ?_, ?_⟩ <;>
        funext i <;> dsimp [addNormSample] <;> push_cast <;> ring

/-- C9 (code bug): when the 10-second window elapses the tick clears normMode
and only then invokes finalizeNorm, which therefore takes its
not-in-collection-mode early return.  With 60 samples accumulated (enough per
the claim) it reports success yet stores no stats, and the session keeps the
identity normalization; with 0 samples accumulated the claimed failure report
does not happen either.  The last three conjuncts show what the claim
describes -- finalizeNorm invoked while the mode is still on stores stats for
60 samples and fails for 0 -- so the call-site ordering is the slip. -/
theorem C9_finalize_after_mode_cleared :
    (normCollectTick sqAt1em6 11 acc60sample none vec1).2.1 = none ∧
    (normCollectTick sqAt1em6 11 acc60sample none vec1).2.2 = true ∧
    normRow (normCollectTick sqAt1em6 11 acc60sample none vec1).2.1 vec1 0 = vec1 0 ∧
    (normCollectTick sqAt1em6 11 (freshAcc 0) none vec1).2.2 = true ∧
    (finalizeNorm sqAt1em6 acc60sample none).1 = true ∧
    (finalizeNorm sqAt1em6 acc60sample none).2.isSome = true ∧
    (finalizeNorm sqAt1em6 (freshAcc 0) none).1 = false := by
  have hacc : acc60sample =
      { normMode := true, normT0 := 0, baseCnt := 60,
        baseSum := fun _ => 60, baseSqSum := fun _ => 60 } := by
    rw [acc60sample, foldl_addNormSample_replicate]
    rw [NormAcc.mk.injEq]
    refine ⟨rfl, rfl, by norm_num [freshAcc], ?_, ?_⟩ <;>
      funext i <;> norm_num [freshAcc, vec1]
  have helapsed : NORM_SECONDS ≤ (11 : ℚ) - 0 := by norm_num [NORM_SECONDS]
  have hrun : normCollectTick sqAt1em6 11 acc60sample none vec1 =
      ({ normMode := false, normT0 := 0, baseCnt := 61,
         baseSum := fun i => 60 + vec1 i,
         baseSqSum := fun i => 60 + vec1 i * vec1 i }, none, true) := by
    rw [hacc]
    unfold normCollectTick
    rw [if_pos rfl]
    dsimp only [addNormSample]
    rw [if_pos helapsed]
    rfl
  have hrun0 : normCollectTick sqAt1em6 11 (freshAcc 0) none vec1 =
      ({ normMode := false, normT0 := 0, baseCnt := 1,
         baseSum := fun i => 0 + vec1 i,
         baseSqSum := fun i => 0 + vec1 i * vec1 i }, none, true) := by
    rw [show freshAcc 0 =
      { normMode := true, normT0 := 0, baseCnt := 0,
        baseSum := fun _ => 0, baseSqSum := fun _ => 0 } from rfl]
    unfold normCollectTick
    rw [if_pos rfl]
    dsimp only [addNormSample]
    rw [if_pos helapsed]
    rfl
  refine ⟨by rw [hrun], by rw [hrun], ?_, by rw [hrun0], ?_, ?_, ?_⟩
  · rw [hrun]
    show (vec1 0 - 0) / max (1 / 1000) 1 = vec1 0
    rw [max_eq_right (by norm_num), sub_zero, div_one]
  · rw [hacc]
    simp [finalizeNorm, MIN_ACCEPTED]
  · rw [hacc]
    simp [finalizeNorm, MIN_ACCEPTED]
  · simp [finalizeNorm, freshAcc, MIN_ACCEPTED]

end RealtimeTCN
